import Mathlib

/-!
Verification of the task-dispatch subsystem of the qt-snippets repository.

Embedded source files:
- `src/threading/run.py` (PySide2 variant): `WorkerSignals`, `Worker.run`,
  `Worker.connect`, `WorkerAgent` — modelled here as `WorkerPS`,
  `WorkerAgent`, `WorkerAgentInstance`.
- `src/threads/qrunnable-threadpool.py` (PyQt5 QRunnable variant):
  `Worker.run`, `WorkerAgent` — modelled here as `WorkerQR`,
  `WorkerAgentQR`, `WorkerAgentQRInstance`.
- `src/threads/threading.py`: `Thread._run` — modelled here as `ThreadTH`.

The spec renames the four signals: started/error/result/complete in the
code correspond to Started/Failed/Succeeded/Finished in the spec.

The internal scheduling of `QThreadPool` is Qt library code that is not part
of this repository; where a claim depends on it, the pool is modelled from
the spec (see `PoolState`, whose doc comment records this).
-/

namespace QtSnippets

/-- A Python exception value: its class name, its message, and whether its
class is a subclass of `Exception` (as opposed to a bare `BaseException`
subclass such as `SystemExit` or `KeyboardInterrupt`).  The worker code
catches faults with an `except Exception:` clause, so this flag decides
whether a raised fault is captured or escapes. -/
structure PyExc where
  kind : String
  message : String
  isException : Bool
deriving Repr, DecidableEq

/-- The traceback object paired with a raised exception, as obtained from
`sys.exc_info()[-1]` in `src/threading/run.py` line 106. -/
structure TracebackObj where
  ofExc : PyExc
deriving Repr, DecidableEq

/-- Model of `traceback.format_exc()`: the formatted trace text for the
current exception.  The real string carries stack frames between the header
line and the final "kind: message" line; the model keeps the header and the
final line, which is the shape the claims inspect (non-empty text embedding
the error kind and message). -/
def formatExc (e : PyExc) : String :=
  "Traceback (most recent call last):\n" ++ e.kind ++ ": " ++ e.message ++ "\n"

/-- The two ways a task body can come back to the worker that invoked it:
a normal return value, or a raised exception. -/
inductive BodyResult where
  | ret (v : String)
  | raise (e : PyExc)
deriving Repr, DecidableEq

/-- True when the body outcome is handled by the worker: a normal return, or
a raise of an `Exception` subclass (which the `except Exception:` clause
catches).  A raise of a non-`Exception` `BaseException` is not handled. -/
def BodyResult.isCatchable : BodyResult → Bool
  | .ret _ => true
  | .raise e => e.isException

/-- Signals emitted by `WorkerSignals` in `src/threading/run.py` (PySide2):
`started(str)`, `error(tuple)`, `result(object)`, `complete(str)`.  The
error payload is the tuple
`(exception_obj, traceback_obj, traceback_formatted)` built on lines
105-110; note that it carries the original exception object itself. -/
inductive EventPS where
  | started (name : String)
  | error (excObj : Option PyExc) (tbObj : Option TracebackObj) (traceText : String)
  | result (value : String)
  | complete (name : String)
deriving Repr, DecidableEq

/-- Signals emitted by `WorkerSignals` in
`src/threads/qrunnable-threadpool.py` (PyQt5): `started()`, `error(object)`
with the formatted trace string, `result(object)`, `complete()`. -/
inductive EventQR where
  | started
  | error (traceText : String)
  | result (value : String)
  | complete
deriving Repr, DecidableEq

/-- Signals emitted by `Thread` in `src/threads/threading.py`:
`starting(int)`, `error(str)`, `result(object)`, `complete(int)`. -/
inductive EventTH where
  | starting (ident : Nat)
  | error (traceText : String)
  | result (value : String)
  | complete (ident : Nat)
deriving Repr, DecidableEq

/-- `Worker.run` of `src/threading/run.py` lines 88-116.  The body outcome is
passed in; the function returns the emitted signal sequence together with
the exception, if any, that escapes `run`.  Control flow of the source:
emit `started`; `try` the body; `except Exception:` builds and emits the
error tuple; `else:` emits `result`; `finally:` emits `complete`.  A raised
non-`Exception` `BaseException` is not matched by the `except` clause: the
`finally:` block still emits `complete`, then the fault propagates out of
`run`. -/
def WorkerPS.run (body : BodyResult) (name : String) : List EventPS × Option PyExc :=
  match body with
  | .ret v => ([.started name, .result v, .complete name], none)
  | .raise e =>
      if e.isException then
        ([.started name,
          .error (some e) (some ⟨e⟩) (formatExc e),
          .complete name], none)
      else
        ([.started name, .complete name], some e)

/-- `Worker.run` of `src/threads/qrunnable-threadpool.py` lines 74-90:
emit `started`; `try` the body; `except Exception:` emits `error` with
`traceback.format_exc()`; `else:` emits `result`; `finally:` emits
`complete`.  Same `BaseException` escape as `WorkerPS.run`. -/
def WorkerQR.run (body : BodyResult) : List EventQR × Option PyExc :=
  match body with
  | .ret v => ([.started, .result v, .complete], none)
  | .raise e =>
      if e.isException then
        ([.started, .error (formatExc e), .complete], none)
      else
        ([.started, .complete], some e)

/-- `Thread._run` of `src/threads/threading.py` lines 103-118: emit
`starting`; `try` the task; `except Exception:` emits `error` with
`traceback.format_exc().strip()`; `else:` emits `result`; `finally:` emits
`complete`. -/
def ThreadTH.run (body : BodyResult) (ident : Nat) : List EventTH × Option PyExc :=
  match body with
  | .ret v => ([.starting ident, .result v, .complete ident], none)
  | .raise e =>
      if e.isException then
        ([.starting ident, .error (formatExc e).trim, .complete ident], none)
      else
        ([.starting ident, .complete ident], some e)

/-- Observer callbacks are opaque callable references; the model identifies
them by number. -/
abbrev CB := Nat

/-- A Python `Dict[str, Callable]`: an insertion-ordered association list
with unique keys. -/
abbrev CallbackDict := List (String × CB)

/-- `d.get(k, None)` on a Python dict. -/
def dictGet (d : CallbackDict) (k : String) : Option CB :=
  (d.find? (fun p => p.1 == k)).map (fun p => p.2)

/-- `WorkerSignals.NAMES` from `src/threading/run.py` lines 65-70. -/
def WorkerSignals.NAMES : List String := ["started", "error", "result", "complete"]

/-- The slots connected to each of the four worker signals, in connection
order.  Qt invokes the slots of an emitted signal in connection order, so
these lists are the callback invocation order for each event kind. -/
structure Connections where
  started : List CB
  error : List CB
  result : List CB
  complete : List CB
deriving Repr, DecidableEq

/-- A fresh worker: no slot connected to any signal. -/
def Connections.empty : Connections := ⟨[], [], [], []⟩

/-- `signal.connect(callback)`: appends the callback to the named signal
connection list. -/
def Connections.connectSignal (c : Connections) (name : String) (cb : CB) : Connections :=
  match name with
  | "started" => { c with started := c.started ++ [cb] }
  | "error" => { c with error := c.error ++ [cb] }
  | "result" => { c with result := c.result ++ [cb] }
  | "complete" => { c with complete := c.complete ++ [cb] }
  | _ => c

/-- `Worker.connect` of `src/threading/run.py` lines 118-139.  `None` means
no callbacks and is accepted unchanged.  Otherwise every key of the dict is
checked against `WorkerSignals.NAMES` first; an invalid key raises
`AssertionError` (modelled as `Except.error`) before anything is connected.
Then the signal names are walked in their fixed order and each callback
present in the dict is connected to its signal. -/
def WorkerPS.connect (c : Connections) (callbacks : Option CallbackDict) :
    Except String Connections :=
  match callbacks with
  | none => Except.ok c
  | some cbs =>
      match cbs.find? (fun p => !(WorkerSignals.NAMES.contains p.1)) with
      | some p => Except.error ("Worker: Invalid key in callbacks: " ++ p.1)
      | none =>
          Except.ok (WorkerSignals.NAMES.foldl
            (fun acc nm =>
              match dictGet cbs nm with
              | none => acc
              | some cb => acc.connectSignal nm cb) c)

/-- Modelled from the spec: the scheduling state of `QThreadPool`, whose
implementation is Qt library code absent from this repository (the source
only calls `start`, `activeThreadCount`, `maxThreadCount` and
`setMaxThreadCount` on it).  The spec, section 4.3, gives the algorithm:
`maxThreadCount` execution slots and a FIFO `pending` queue; `start`
assigns a free slot immediately or else appends to the queue; when a
running task finishes, the head of the queue (if any) takes the freed
slot.  Tasks are identified by number. -/
structure PoolState where
  maxThreadCount : Nat
  running : List Nat
  pending : List Nat
deriving Repr, DecidableEq

/-- A fresh pool with the given capacity: nothing running, nothing queued. -/
def PoolState.init (c : Nat) : PoolState := ⟨c, [], []⟩

/-- Modelled from the spec: `QThreadPool.start` — run the task now if a slot
is free, otherwise append it to the FIFO pending queue. -/
def PoolState.start (p : PoolState) (t : Nat) : PoolState :=
  if p.running.length < p.maxThreadCount then
    { p with running := p.running ++ [t] }
  else
    { p with pending := p.pending ++ [t] }

/-- Modelled from the spec: a running task emits its final `complete` event
and leaves its slot; if the pending queue is non-empty its head takes the
freed slot.  A task that is not running changes nothing. -/
def PoolState.finish (p : PoolState) (t : Nat) : PoolState :=
  if t ∈ p.running then
    match p.pending with
    | [] => { p with running := p.running.erase t }
    | q :: rest => { p with running := p.running.erase t ++ [q], pending := rest }
  else p

/-- `QThreadPool.activeThreadCount`: the number of occupied slots. -/
def PoolState.activeThreadCount (p : PoolState) : Nat := p.running.length

/-- `QThreadPool.setMaxThreadCount`. -/
def PoolState.setMaxThreadCount (p : PoolState) (v : Nat) : PoolState :=
  { p with maxThreadCount := v }

/-- Submitting a whole list of tasks in order, none finishing in between. -/
def PoolState.submitAll (p : PoolState) : List Nat → PoolState
  | [] => p
  | t :: ts => PoolState.submitAll (p.start t) ts

/-- The pool states reachable from a fresh pool of capacity `c` by
submissions and completions. -/
inductive PoolReachable (c : Nat) : PoolState → Prop
  | init : PoolReachable c (PoolState.init c)
  | start (p : PoolState) (t : Nat) :
      PoolReachable c p → PoolReachable c (p.start t)
  | finish (p : PoolState) (t : Nat) :
      PoolReachable c p → PoolReachable c (p.finish t)

/-- Python `None`, the value `WorkerAgent.dispatch` returns to its caller. -/
inductive PyNone where
  | none
deriving Repr, DecidableEq

/-- Per-instance state of `WorkerAgent` in `src/threading/run.py`: only the
stored global callbacks.  The threadpool is deliberately NOT an instance
field: `__threadpool = PySide2.QtCore.QThreadPool()` on line 144 is a class
attribute, one object shared by every instance, so the pool state is passed
to the operations below as an explicit shared value that is the same for
all instances. -/
structure WorkerAgentInstance where
  globalCallbacks : Option CallbackDict
deriving Repr, DecidableEq

/-- `WorkerAgent.__init__` (lines 146-180): stores the global callbacks on
the instance and, when `max_thread_count` is given, sets it on the shared
class-level pool. -/
def WorkerAgent.init (pool : PoolState) (maxCount : Option Nat)
    (globalCallbacks : Option CallbackDict) : WorkerAgentInstance × PoolState :=
  match maxCount with
  | none => (⟨globalCallbacks⟩, pool)
  | some v => (⟨globalCallbacks⟩, pool.setMaxThreadCount v)

/-- `WorkerAgent.dispatch` of `src/threading/run.py` lines 182-210: build a
fresh `Worker`, connect the instance global callbacks and then the local
callbacks of this call (either `connect` raises on an invalid key, modelled
as `Except.error`), hand the worker to the shared class-level pool, and
return `None` — the function is annotated `-> None` and has no return
statement.  The worker is identified in the pool by `t`. -/
def WorkerAgent.dispatch (inst : WorkerAgentInstance) (pool : PoolState) (t : Nat)
    (localCallbacks : Option CallbackDict) :
    Except String (Connections × PoolState × PyNone) :=
  match WorkerPS.connect Connections.empty inst.globalCallbacks with
  | Except.error m => Except.error m
  | Except.ok c1 =>
      match WorkerPS.connect c1 localCallbacks with
      | Except.error m => Except.error m
      | Except.ok c2 => Except.ok (c2, pool.start t, PyNone.none)

/-- `WorkerAgent.active_threads` read through an instance
(`src/threading/run.py` lines 212-214): delegates to the shared class-level
pool; the instance itself contributes nothing. -/
def WorkerAgentInstance.activeThreads (_ : WorkerAgentInstance) (pool : PoolState) : Nat :=
  pool.activeThreadCount

/-- `WorkerAgent.max_thread_count` getter read through an instance (lines
216-218): delegates to the shared class-level pool. -/
def WorkerAgentInstance.maxThreadCount (_ : WorkerAgentInstance) (pool : PoolState) : Nat :=
  pool.maxThreadCount

/-- `WorkerAgent.max_thread_count` setter through an instance (lines
220-222): mutates the shared class-level pool. -/
def WorkerAgentInstance.setMax (_ : WorkerAgentInstance) (pool : PoolState)
    (v : Nat) : PoolState :=
  pool.setMaxThreadCount v

/-- Per-instance state of `WorkerAgent` in
`src/threads/qrunnable-threadpool.py` lines 97-114: `__init__` looks up
exactly the four fixed keys in `global_callbacks` with `.get(key, None)`;
a dict entry under any other key is never consulted and is dropped without
any error.  The threadpool of this variant is likewise a class attribute
(line 95). -/
structure WorkerAgentQRInstance where
  cbStarted : Option CB
  cbError : Option CB
  cbResult : Option CB
  cbComplete : Option CB
deriving Repr, DecidableEq

/-- `WorkerAgent.__init__` of the PyQt5 variant (lines 97-114). -/
def WorkerAgentQR.init (globalCallbacks : Option CallbackDict) : WorkerAgentQRInstance :=
  let g := globalCallbacks.getD []
  ⟨dictGet g "started", dictGet g "error", dictGet g "result", dictGet g "complete"⟩

/-- `if cb is not None: signal.connect(cb)` — the guarded connect used eight
times in the PyQt5 `WorkerAgent.dispatch`. -/
def connectIfSome (c : Connections) (nm : String) (cb : Option CB) : Connections :=
  match cb with
  | none => c
  | some f => c.connectSignal nm f

/-- `WorkerAgent.dispatch` of the PyQt5 variant (lines 116-152): connect the
four global callbacks in signal order, then the four local callbacks looked
up with `.get(key, None)` (keys other than the four are never consulted),
then start the worker on the shared class-level pool; returns `None`. -/
def WorkerAgentQR.dispatch (inst : WorkerAgentQRInstance) (pool : PoolState) (t : Nat)
    (localCallbacks : Option CallbackDict) : Connections × PoolState × PyNone :=
  let c := Connections.empty
  let c := connectIfSome c "started" inst.cbStarted
  let c := connectIfSome c "error" inst.cbError
  let c := connectIfSome c "result" inst.cbResult
  let c := connectIfSome c "complete" inst.cbComplete
  let lc := localCallbacks.getD []
  let c := connectIfSome c "started" (dictGet lc "started")
  let c := connectIfSome c "error" (dictGet lc "error")
  let c := connectIfSome c "result" (dictGet lc "result")
  let c := connectIfSome c "complete" (dictGet lc "complete")
  (c, pool.start t, PyNone.none)

/-- `active_threads` of the PyQt5 agent read through an instance (lines
154-156): delegates to the shared class-level pool. -/
def WorkerAgentQRInstance.activeThreads (_ : WorkerAgentQRInstance)
    (pool : PoolState) : Nat :=
  pool.activeThreadCount

/-- The callback sequence the spec merge contract assigns to one event kind
and one scope: the single dict entry for that kind, as a zero- or
one-element sequence; an absent dict or key is the empty sequence.  Stated
from the spec in order to compare it with the connection lists the code
builds. -/
def effectiveCallbacks (d : Option CallbackDict) (k : String) : List CB :=
  match d with
  | none => []
  | some cbs => (dictGet cbs k).toList

/-- True when the dict holds a key outside `WorkerSignals.NAMES`. -/
def hasInvalidKey (cbs : CallbackDict) : Bool :=
  cbs.any (fun p => !(WorkerSignals.NAMES.contains p.1))

/-- Whether a connect or dispatch call completed without raising. -/
def exceptIsOk : Except String Connections → Bool
  | Except.ok _ => true
  | Except.error _ => false

/-- The `started` event of the PyQt5 worker. -/
def EventQR.isStarted : EventQR → Bool
  | .started => true
  | _ => false

/-- The `error` event of the PyQt5 worker (the spec Failed event). -/
def EventQR.isError : EventQR → Bool
  | .error _ => true
  | _ => false

/-- An outcome event of the PyQt5 worker: `error` or `result` (the spec
Failed or Succeeded). -/
def EventQR.isOutcome : EventQR → Bool
  | .error _ => true
  | .result _ => true
  | _ => false

/-- The `complete` event of the PyQt5 worker (the spec Finished event). -/
def EventQR.isComplete : EventQR → Bool
  | .complete => true
  | _ => false

/-- The `started` event of the PySide2 worker. -/
def EventPS.isStartedE : EventPS → Bool
  | .started _ => true
  | _ => false

/-- An outcome event of the PySide2 worker: `error` or `result`. -/
def EventPS.isOutcomeE : EventPS → Bool
  | .error _ _ _ => true
  | .result _ => true
  | _ => false

/-- The `complete` event of the PySide2 worker. -/
def EventPS.isCompleteE : EventPS → Bool
  | .complete _ => true
  | _ => false

/-- True when a PySide2 event payload contains the original raised exception
object itself (as the error tuple built on lines 105-110 does). -/
def EventPS.carriesFaultObject : EventPS → Bool
  | .error (some _) _ _ => true
  | _ => false

theorem connectSignal_started (c : Connections) (cb : CB) :
    Connections.connectSignal c "started" cb
      = { c with started := c.started ++ [cb] } := rfl

theorem connectSignal_error (c : Connections) (cb : CB) :
    Connections.connectSignal c "error" cb
      = { c with error := c.error ++ [cb] } := rfl

theorem connectSignal_result (c : Connections) (cb : CB) :
    Connections.connectSignal c "result" cb
      = { c with result := c.result ++ [cb] } := rfl

theorem connectSignal_complete (c : Connections) (cb : CB) :
    Connections.connectSignal c "complete" cb
      = { c with complete := c.complete ++ [cb] } := rfl

theorem connect_fields (c c' : Connections) (d : Option CallbackDict)
    (h : WorkerPS.connect c d = Except.ok c') :
    c'.started = c.started ++ effectiveCallbacks d "started"
    ∧ c'.error = c.error ++ effectiveCallbacks d "error"
    ∧ c'.result = c.result ++ effectiveCallbacks d "result"
    ∧ c'.complete = c.complete ++ effectiveCallbacks d "complete" := by
  cases d with
  | none =>
      unfold WorkerPS.connect at h
      injection h with h
      subst h
      simp [effectiveCallbacks]
  | some cbs =>
      cases hf : cbs.find? (fun p => !(WorkerSignals.NAMES.contains p.1)) with
      | some p => simp only [WorkerPS.connect, hf] at h; cases h
      | none =>
          simp only [WorkerPS.connect, hf] at h
          injection h with h
          subst h
          simp only [WorkerSignals.NAMES, List.foldl, effectiveCallbacks]
          cases h1 : dictGet cbs "started" <;>
            cases h2 : dictGet cbs "error" <;>
              cases h3 : dictGet cbs "result" <;>
                cases h4 : dictGet cbs "complete" <;>
                  simp [connectSignal_started, connectSignal_error,
                    connectSignal_result, connectSignal_complete]

theorem connectIfSome_started (c : Connections) (o : Option CB) :
    connectIfSome c "started" o = { c with started := c.started ++ o.toList } := by
  cases o <;> simp [connectIfSome, connectSignal_started]

theorem connectIfSome_error (c : Connections) (o : Option CB) :
    connectIfSome c "error" o = { c with error := c.error ++ o.toList } := by
  cases o <;> simp [connectIfSome, connectSignal_error]

theorem connectIfSome_result (c : Connections) (o : Option CB) :
    connectIfSome c "result" o = { c with result := c.result ++ o.toList } := by
  cases o <;> simp [connectIfSome, connectSignal_result]

theorem connectIfSome_complete (c : Connections) (o : Option CB) :
    connectIfSome c "complete" o = { c with complete := c.complete ++ o.toList } := by
  cases o <;> simp [connectIfSome, connectSignal_complete]

theorem dictGet_append_single (g : CallbackDict) (k nm : String) (cb : CB)
    (hk : (k == nm) = false) :
    dictGet (g ++ [(k, cb)]) nm = dictGet g nm := by
  unfold dictGet
  rw [List.find?_append]
  have h1 : List.find? (fun p => p.1 == nm) [(k, cb)] = Option.none := by
    simp [List.find?, hk]
  rw [h1]
  cases g.find? (fun p => p.1 == nm) <;> rfl

theorem poolReachable_invariant (c : Nat) (p : PoolState)
    (h : PoolReachable c p) :
    p.maxThreadCount = c ∧ p.running.length ≤ c := by
  induction h with
  | init => simp [PoolState.init]
  | start p t hp ih =>
      obtain ⟨hm, hl⟩ := ih
      unfold PoolState.start
      by_cases hlt : p.running.length < p.maxThreadCount
      · rw [if_pos hlt]
        refine ⟨hm, ?_⟩
        simp only [List.length_append, List.length_cons, List.length_nil]
        omega
      · rw [if_neg hlt]
        exact ⟨hm, hl⟩
  | finish p t hp ih =>
      obtain ⟨hm, hl⟩ := ih
      unfold PoolState.finish
      by_cases hmem : t ∈ p.running
      · rw [if_pos hmem]
        have hpos : 0 < p.running.length := List.length_pos.mpr
          (fun he => by simp [he] at hmem)
        have herase : (p.running.erase t).length = p.running.length - 1 :=
          List.length_erase_of_mem hmem
        cases hq : p.pending with
        | nil =>
            refine ⟨hm, ?_⟩
            rw [herase]; omega
        | cons q rest =>
            refine ⟨hm, ?_⟩
            simp only [List.length_append, List.length_cons, List.length_nil, herase]
            omega
      · rw [if_neg hmem]
        exact ⟨hm, hl⟩

theorem submitAll_full (ts : List Nat) (p : PoolState)
    (h : p.maxThreadCount ≤ p.running.length) :
    PoolState.submitAll p ts = { p with pending := p.pending ++ ts } := by
  induction ts generalizing p with
  | nil => simp [PoolState.submitAll]
  | cons t ts ih =>
      have hnot : ¬ p.running.length < p.maxThreadCount := Nat.not_lt.mpr h
      have hstep : p.start t = { p with pending := p.pending ++ [t] } := by
        unfold PoolState.start
        rw [if_neg hnot]
      show PoolState.submitAll (p.start t) ts = _
      rw [hstep, ih { p with pending := p.pending ++ [t] } h]
      simp

theorem submitAll_take_drop (ts : List Nat) (p : PoolState) (hp : p.pending = []) :
    (PoolState.submitAll p ts).running
        = p.running ++ ts.take (p.maxThreadCount - p.running.length)
    ∧ (PoolState.submitAll p ts).pending
        = ts.drop (p.maxThreadCount - p.running.length) := by
  induction ts generalizing p with
  | nil => simp [PoolState.submitAll, hp]
  | cons t ts ih =>
      by_cases hlt : p.running.length < p.maxThreadCount
      · have hstep : p.start t = { p with running := p.running ++ [t] } := by
          unfold PoolState.start
          rw [if_pos hlt]
        have hsub : p.maxThreadCount - p.running.length
            = (p.maxThreadCount - (p.running.length + 1)) + 1 := by omega
        obtain ⟨h1, h2⟩ := ih { p with running := p.running ++ [t] } hp
        constructor
        · show (PoolState.submitAll (p.start t) ts).running = _
          rw [hstep, h1]
          simp only [List.length_append, List.length_cons, List.length_nil]
          rw [hsub, List.take_succ_cons]
          simp
        · show (PoolState.submitAll (p.start t) ts).pending = _
          rw [hstep, h2]
          simp only [List.length_append, List.length_cons, List.length_nil]
          rw [hsub, List.drop_succ_cons]
      · have hfull : p.maxThreadCount ≤ p.running.length := Nat.not_lt.mp hlt
        have hz : p.maxThreadCount - p.running.length = 0 :=
          Nat.sub_eq_zero_of_le hfull
        have hstep : p.start t = { p with pending := p.pending ++ [t] } := by
          unfold PoolState.start
          rw [if_neg hlt]
        have hrest := submitAll_full ts { p with pending := p.pending ++ [t] } hfull
        constructor
        · show (PoolState.submitAll (p.start t) ts).running = _
          rw [hstep, hrest]
          simp [hz]
        · show (PoolState.submitAll (p.start t) ts).pending = _
          rw [hstep, hrest]
          simp [hz, hp]

/-- Claim C10 (confirmed): the worker fault capture handles only `Exception`
subclasses.  For a task body raising a `BaseException` that is not an
`Exception`, none of the three run variants emits an error or a result
event; the `finally:` clause still emits the complete event, and the fault
escapes the run method into the execution context of the worker (the second
component of each run is the escaping exception). -/
theorem base_exception_escapes (e : PyExc) (nm : String) (i : Nat)
    (hx : e.isException = false) :
    WorkerQR.run (BodyResult.raise e) = ([EventQR.started, EventQR.complete], some e)
    ∧ WorkerPS.run (BodyResult.raise e) nm
        = ([EventPS.started nm, EventPS.complete nm], some e)
    ∧ ThreadTH.run (BodyResult.raise e) i
        = ([EventTH.starting i, EventTH.complete i], some e) := by
  refine ⟨?_, ?_, ?_⟩ <;> simp [WorkerQR.run, WorkerPS.run, ThreadTH.run, hx]

/-- Witness for C10 at a concrete input: a body raising SystemExit. -/
theorem base_exception_escapes_witness :
    WorkerQR.run (BodyResult.raise ⟨"SystemExit", "0", false⟩)
        = ([EventQR.started, EventQR.complete], some ⟨"SystemExit", "0", false⟩)
    ∧ WorkerPS.run (BodyResult.raise ⟨"SystemExit", "0", false⟩) "worker"
        = ([EventPS.started "worker", EventPS.complete "worker"],
            some ⟨"SystemExit", "0", false⟩)
    ∧ ThreadTH.run (BodyResult.raise ⟨"SystemExit", "0", false⟩) 5
        = ([EventTH.starting 5, EventTH.complete 5], some ⟨"SystemExit", "0", false⟩) :=
  base_exception_escapes ⟨"SystemExit", "0", false⟩ "worker" 5 rfl

/-- Claim C1 (corrected, amended): for every execution whose task body
returns normally or raises an `Exception`-subclass fault, the worker emits
exactly one started event, exactly one outcome event (error or result,
never both), and exactly one complete event — three events, beginning with
started and ending with complete, nothing skipped or duplicated, in both
pool variants.  The amendment restricts the original claim to such bodies:
a body raising a non-`Exception` `BaseException` gets neither an error nor
a result event (see the counterexample below and claim C10). -/
theorem run_event_protocol (body : BodyResult) (nm : String)
    (h : body.isCatchable = true) :
    ((WorkerQR.run body).1.countP EventQR.isStarted = 1
     ∧ (WorkerQR.run body).1.countP EventQR.isOutcome = 1
     ∧ (WorkerQR.run body).1.countP EventQR.isComplete = 1
     ∧ (WorkerQR.run body).1.length = 3
     ∧ (WorkerQR.run body).1.head? = some EventQR.started
     ∧ (WorkerQR.run body).1.getLast? = some EventQR.complete)
    ∧ ((WorkerPS.run body nm).1.countP EventPS.isStartedE = 1
       ∧ (WorkerPS.run body nm).1.countP EventPS.isOutcomeE = 1
       ∧ (WorkerPS.run body nm).1.countP EventPS.isCompleteE = 1
       ∧ (WorkerPS.run body nm).1.length = 3
       ∧ (WorkerPS.run body nm).1.head? = some (EventPS.started nm)
       ∧ (WorkerPS.run body nm).1.getLast? = some (EventPS.complete nm)) := by
  cases body with
  | ret v =>
      refine ⟨⟨?_, ?_, ?_, ?_, ?_, ?_⟩, ?_, ?_, ?_, ?_, ?_, ?_⟩ <;>
        simp [WorkerQR.run, WorkerPS.run, List.countP_cons, List.countP_nil,
          EventQR.isStarted, EventQR.isOutcome, EventQR.isComplete,
          EventPS.isStartedE, EventPS.isOutcomeE, EventPS.isCompleteE]
  | raise e =>
      have he : e.isException = true := by simpa [BodyResult.isCatchable] using h
      refine ⟨⟨?_, ?_, ?_, ?_, ?_, ?_⟩, ?_, ?_, ?_, ?_, ?_, ?_⟩ <;>
        simp [WorkerQR.run, WorkerPS.run, he, List.countP_cons, List.countP_nil,
          EventQR.isStarted, EventQR.isOutcome, EventQR.isComplete,
          EventPS.isStartedE, EventPS.isOutcomeE, EventPS.isCompleteE]

/-- Counterexample refuting C1 as stated: a task body raising
KeyboardInterrupt — a `BaseException` that is not an `Exception` — yields a
started and a complete event but no outcome event at all, so the clause
"exactly one of Failed or Succeeded, never neither" fails on the code for
this submission. -/
theorem run_event_protocol_counterexample :
    (WorkerQR.run (BodyResult.raise ⟨"KeyboardInterrupt", "interrupted", false⟩)).1.countP
        EventQR.isOutcome = 0
    ∧ (WorkerQR.run (BodyResult.raise ⟨"KeyboardInterrupt", "interrupted", false⟩)).1.countP
        EventQR.isStarted = 1
    ∧ (WorkerQR.run (BodyResult.raise ⟨"KeyboardInterrupt", "interrupted", false⟩)).1.countP
        EventQR.isComplete = 1 := ⟨rfl, rfl, rfl⟩

/-- Witness for C1 (amended) at a concrete input: a successful body. -/
theorem run_event_protocol_witness :
    ((WorkerQR.run (BodyResult.ret "ok")).1.countP EventQR.isStarted = 1
     ∧ (WorkerQR.run (BodyResult.ret "ok")).1.countP EventQR.isOutcome = 1
     ∧ (WorkerQR.run (BodyResult.ret "ok")).1.countP EventQR.isComplete = 1
     ∧ (WorkerQR.run (BodyResult.ret "ok")).1.length = 3
     ∧ (WorkerQR.run (BodyResult.ret "ok")).1.head? = some EventQR.started
     ∧ (WorkerQR.run (BodyResult.ret "ok")).1.getLast? = some EventQR.complete)
    ∧ ((WorkerPS.run (BodyResult.ret "ok") "w").1.countP EventPS.isStartedE = 1
       ∧ (WorkerPS.run (BodyResult.ret "ok") "w").1.countP EventPS.isOutcomeE = 1
       ∧ (WorkerPS.run (BodyResult.ret "ok") "w").1.countP EventPS.isCompleteE = 1
       ∧ (WorkerPS.run (BodyResult.ret "ok") "w").1.length = 3
       ∧ (WorkerPS.run (BodyResult.ret "ok") "w").1.head? = some (EventPS.started "w")
       ∧ (WorkerPS.run (BodyResult.ret "ok") "w").1.getLast?
           = some (EventPS.complete "w")) :=
  run_event_protocol (BodyResult.ret "ok") "w" rfl

/-- Claim C2 (corrected, amended): a task body raising an
`Exception`-subclass fault is converted into exactly one error event whose
formatted trace text is non-empty; nothing escapes the worker run method,
and the run still ends with the complete event — the trigger on which the
pool releases the slot — exactly as for a successful body.  The amendment
restricts the original claim to `Exception`-subclass faults: a
non-`Exception` `BaseException` is not converted and escapes the worker
(see the counterexample below and claim C10). -/
theorem fault_contained (e : PyExc) (v nm : String) (hx : e.isException = true) :
    (WorkerQR.run (BodyResult.raise e)).2 = Option.none
    ∧ (WorkerQR.run (BodyResult.raise e)).1.countP EventQR.isError = 1
    ∧ 0 < (formatExc e).length
    ∧ (WorkerQR.run (BodyResult.raise e)).1.getLast?
        = (WorkerQR.run (BodyResult.ret v)).1.getLast?
    ∧ (WorkerPS.run (BodyResult.raise e) nm).2 = Option.none
    ∧ (ThreadTH.run (BodyResult.raise e) 0).2 = Option.none := by
  have hlen : 0 < ("Traceback (most recent call last):\n" : String).length := by decide
  refine ⟨?_, ?_, ?_, ?_, ?_, ?_⟩ <;>
    simp [WorkerQR.run, WorkerPS.run, ThreadTH.run, hx, List.countP_cons,
      List.countP_nil, EventQR.isError, formatExc, String.length_append]
  omega

/-- Counterexample refuting C2 as stated: a task body raising GeneratorExit
— a `BaseException` that is not an `Exception` — is not converted into an
error event and propagates out of the worker run method as a control-flow
fault. -/
theorem fault_contained_counterexample :
    (WorkerQR.run (BodyResult.raise ⟨"GeneratorExit", "closing", false⟩)).2
        = some ⟨"GeneratorExit", "closing", false⟩
    ∧ (WorkerQR.run (BodyResult.raise ⟨"GeneratorExit", "closing", false⟩)).1.countP
        EventQR.isError = 0 := ⟨rfl, rfl⟩

/-- Witness for C2 (amended) at a concrete input: a ValueError body. -/
theorem fault_contained_witness :
    (WorkerQR.run (BodyResult.raise ⟨"ValueError", "boom", true⟩)).2 = Option.none
    ∧ (WorkerQR.run (BodyResult.raise ⟨"ValueError", "boom", true⟩)).1.countP
        EventQR.isError = 1
    ∧ 0 < (formatExc ⟨"ValueError", "boom", true⟩).length
    ∧ (WorkerQR.run (BodyResult.raise ⟨"ValueError", "boom", true⟩)).1.getLast?
        = (WorkerQR.run (BodyResult.ret "done")).1.getLast?
    ∧ (WorkerPS.run (BodyResult.raise ⟨"ValueError", "boom", true⟩) "w").2 = Option.none
    ∧ (ThreadTH.run (BodyResult.raise ⟨"ValueError", "boom", true⟩) 0).2 = Option.none :=
  fault_contained ⟨"ValueError", "boom", true⟩ "done" "w" rfl

/-- Claim C5 (corrected, amended): in the PyQt5 QRunnable variant and the
threading.Thread variant, the error payload is only the formatted trace
text — inert serialized data; but in the PySide2 variant of
`src/threading/run.py` the error tuple carries the original exception
object and the traceback object across the thread boundary alongside the
trace text, so "the original fault object is never handed across" fails on
the code (see the counterexample below). -/
theorem failed_payload_inert (e : PyExc) (nm : String) (i : Nat)
    (hx : e.isException = true) :
    (WorkerQR.run (BodyResult.raise e)).1
        = [EventQR.started, EventQR.error (formatExc e), EventQR.complete]
    ∧ (ThreadTH.run (BodyResult.raise e) i).1
        = [EventTH.starting i, EventTH.error (formatExc e).trim, EventTH.complete i]
    ∧ (WorkerPS.run (BodyResult.raise e) nm).1
        = [EventPS.started nm,
           EventPS.error (some e) (some ⟨e⟩) (formatExc e),
           EventPS.complete nm] := by
  refine ⟨?_, ?_, ?_⟩ <;> simp [WorkerQR.run, ThreadTH.run, WorkerPS.run, hx]

/-- Counterexample refuting C5 as stated: a concrete raising body in the
PySide2 variant puts the original exception object (and its traceback
object) into the emitted error payload. -/
theorem serialized_payload_counterexample :
    (WorkerPS.run (BodyResult.raise ⟨"Exception", "boom", true⟩) "w").1.countP
        EventPS.carriesFaultObject = 1
    ∧ (WorkerPS.run (BodyResult.raise ⟨"Exception", "boom", true⟩) "w").1
        = [EventPS.started "w",
           EventPS.error (some ⟨"Exception", "boom", true⟩)
             (some ⟨⟨"Exception", "boom", true⟩⟩)
             (formatExc ⟨"Exception", "boom", true⟩),
           EventPS.complete "w"] := ⟨rfl, rfl⟩

/-- Witness for C5 (amended) at a concrete input: a RuntimeError body. -/
theorem failed_payload_inert_witness :
    (WorkerQR.run (BodyResult.raise ⟨"RuntimeError", "bad", true⟩)).1
        = [EventQR.started, EventQR.error (formatExc ⟨"RuntimeError", "bad", true⟩),
           EventQR.complete]
    ∧ (ThreadTH.run (BodyResult.raise ⟨"RuntimeError", "bad", true⟩) 3).1
        = [EventTH.starting 3,
           EventTH.error (formatExc ⟨"RuntimeError", "bad", true⟩).trim,
           EventTH.complete 3]
    ∧ (WorkerPS.run (BodyResult.raise ⟨"RuntimeError", "bad", true⟩) "x").1
        = [EventPS.started "x",
           EventPS.error (some ⟨"RuntimeError", "bad", true⟩)
             (some ⟨⟨"RuntimeError", "bad", true⟩⟩)
             (formatExc ⟨"RuntimeError", "bad", true⟩),
           EventPS.complete "x"] :=
  failed_payload_inert ⟨"RuntimeError", "bad", true⟩ "x" 3 rfl

/-- Claim C3 (confirmed): for every dispatch and every event kind, the
callback sequence connected for that kind is the global entry for the kind
followed by the local entry — global connected (hence invoked) before
local, absent dicts and absent keys as empty sequences — in both agent
variants; a call supplying only local callbacks never bypasses the global
ones, which are always connected first. -/
theorem global_before_local
    (g l : Option CallbackDict) (pool pool2 : PoolState) (t t2 : Nat)
    (r : Connections × PoolState × PyNone) (gq lq : Option CallbackDict)
    (h : WorkerAgent.dispatch ⟨g⟩ pool t l = Except.ok r) :
    (r.1.started = effectiveCallbacks g "started" ++ effectiveCallbacks l "started"
     ∧ r.1.error = effectiveCallbacks g "error" ++ effectiveCallbacks l "error"
     ∧ r.1.result = effectiveCallbacks g "result" ++ effectiveCallbacks l "result"
     ∧ r.1.complete
         = effectiveCallbacks g "complete" ++ effectiveCallbacks l "complete")
    ∧ ((WorkerAgentQR.dispatch (WorkerAgentQR.init gq) pool2 t2 lq).1.started
          = effectiveCallbacks gq "started" ++ effectiveCallbacks lq "started"
       ∧ (WorkerAgentQR.dispatch (WorkerAgentQR.init gq) pool2 t2 lq).1.error
           = effectiveCallbacks gq "error" ++ effectiveCallbacks lq "error"
       ∧ (WorkerAgentQR.dispatch (WorkerAgentQR.init gq) pool2 t2 lq).1.result
           = effectiveCallbacks gq "result" ++ effectiveCallbacks lq "result"
       ∧ (WorkerAgentQR.dispatch (WorkerAgentQR.init gq) pool2 t2 lq).1.complete
           = effectiveCallbacks gq "complete" ++ effectiveCallbacks lq "complete") := by
  constructor
  · simp only [WorkerAgent.dispatch] at h
    cases h1 : WorkerPS.connect Connections.empty g with
    | error m => simp only [h1] at h; cases h
    | ok c1 =>
        cases h2 : WorkerPS.connect c1 l with
        | error m => simp only [h1, h2] at h; cases h
        | ok c2 =>
            simp only [h1, h2] at h
            injection h with h
            subst h
            obtain ⟨a1, a2, a3, a4⟩ := connect_fields Connections.empty c1 g h1
            obtain ⟨b1, b2, b3, b4⟩ := connect_fields c1 c2 l h2
            refine ⟨?_, ?_, ?_, ?_⟩ <;>
              simp [b1, b2, b3, b4, a1, a2, a3, a4, Connections.empty]
  · cases gq <;> cases lq <;>
      refine ⟨?_, ?_, ?_, ?_⟩ <;>
        simp [WorkerAgentQR.dispatch, WorkerAgentQR.init,
          connectIfSome_started, connectIfSome_error, connectIfSome_result,
          connectIfSome_complete, effectiveCallbacks, dictGet, Connections.empty]

/-- Witness for C3 at concrete inputs: the global callback 1 is connected to
the started signal before the local callback 2. -/
theorem global_before_local_witness :
    (((⟨[1, 2], [], [], []⟩, (PoolState.init 3).start 9, PyNone.none) :
        Connections × PoolState × PyNone).1.started
        = effectiveCallbacks (some [("started", 1)]) "started"
            ++ effectiveCallbacks (some [("started", 2)]) "started"
     ∧ ((⟨[1, 2], [], [], []⟩, (PoolState.init 3).start 9, PyNone.none) :
        Connections × PoolState × PyNone).1.error
         = effectiveCallbacks (some [("started", 1)]) "error"
             ++ effectiveCallbacks (some [("started", 2)]) "error"
     ∧ ((⟨[1, 2], [], [], []⟩, (PoolState.init 3).start 9, PyNone.none) :
        Connections × PoolState × PyNone).1.result
         = effectiveCallbacks (some [("started", 1)]) "result"
             ++ effectiveCallbacks (some [("started", 2)]) "result"
     ∧ ((⟨[1, 2], [], [], []⟩, (PoolState.init 3).start 9, PyNone.none) :
        Connections × PoolState × PyNone).1.complete
         = effectiveCallbacks (some [("started", 1)]) "complete"
             ++ effectiveCallbacks (some [("started", 2)]) "complete")
    ∧ ((WorkerAgentQR.dispatch (WorkerAgentQR.init (some [("complete", 3)]))
          (PoolState.init 2) 4 (some [("complete", 5)])).1.started
          = effectiveCallbacks (some [("complete", 3)]) "started"
              ++ effectiveCallbacks (some [("complete", 5)]) "started"
       ∧ (WorkerAgentQR.dispatch (WorkerAgentQR.init (some [("complete", 3)]))
            (PoolState.init 2) 4 (some [("complete", 5)])).1.error
           = effectiveCallbacks (some [("complete", 3)]) "error"
               ++ effectiveCallbacks (some [("complete", 5)]) "error"
       ∧ (WorkerAgentQR.dispatch (WorkerAgentQR.init (some [("complete", 3)]))
            (PoolState.init 2) 4 (some [("complete", 5)])).1.result
           = effectiveCallbacks (some [("complete", 3)]) "result"
               ++ effectiveCallbacks (some [("complete", 5)]) "result"
       ∧ (WorkerAgentQR.dispatch (WorkerAgentQR.init (some [("complete", 3)]))
            (PoolState.init 2) 4 (some [("complete", 5)])).1.complete
           = effectiveCallbacks (some [("complete", 3)]) "complete"
               ++ effectiveCallbacks (some [("complete", 5)]) "complete") :=
  global_before_local (some [("started", 1)]) (some [("started", 2)])
    (PoolState.init 3) (PoolState.init 2) 9 4
    (⟨[1, 2], [], [], []⟩, (PoolState.init 3).start 9, PyNone.none)
    (some [("complete", 3)]) (some [("complete", 5)]) rfl

/-- Claim C4 (corrected, amended): in the PySide2 variant, `Worker.connect`
checks every supplied key against the four valid names and raises
`AssertionError` on any other key, before connecting anything and before
any event can be emitted; but in the PyQt5 QRunnable variant the callback
dicts are read only by fixed-key lookup, so a key outside the set is a
silent no-op — construction succeeds and the entry is dropped (see the
counterexample below). -/
theorem callback_key_validation
    (c : Connections) (cbs : CallbackDict) (g : CallbackDict) (k : String) (cb : CB)
    (hinv : hasInvalidKey cbs = true)
    (hbad : k ∉ WorkerSignals.NAMES) :
    exceptIsOk (WorkerPS.connect c (some cbs)) = false
    ∧ WorkerAgentQR.init (some (g ++ [(k, cb)])) = WorkerAgentQR.init (some g) := by
  constructor
  · unfold WorkerPS.connect
    cases hf : cbs.find? (fun p => !(WorkerSignals.NAMES.contains p.1)) with
    | some p => simp only [hf]; simp [exceptIsOk]
    | none =>
        exfalso
        unfold hasInvalidKey at hinv
        rw [List.any_eq_true] at hinv
        obtain ⟨x, hx, hxbad⟩ := hinv
        have hnone := List.find?_eq_none.mp hf x hx
        rw [hxbad] at hnone
        exact hnone rfl
  · have hne : ∀ nm, nm ∈ WorkerSignals.NAMES → (k == nm) = false := by
      intro nm hnm
      refine beq_eq_false_iff_ne.mpr (fun he => ?_)
      subst he
      exact hbad hnm
    have h1 := dictGet_append_single g k "started" cb
      (hne "started" (by simp [WorkerSignals.NAMES]))
    have h2 := dictGet_append_single g k "error" cb
      (hne "error" (by simp [WorkerSignals.NAMES]))
    have h3 := dictGet_append_single g k "result" cb
      (hne "result" (by simp [WorkerSignals.NAMES]))
    have h4 := dictGet_append_single g k "complete" cb
      (hne "complete" (by simp [WorkerSignals.NAMES]))
    simp [WorkerAgentQR.init, h1, h2, h3, h4]

/-- Counterexample refuting C4 as stated: constructing the PyQt5 agent with
the misspelled key "finish" succeeds — no failure is raised — and behaves
exactly as if no callbacks had been supplied: the invalid key is a silent
no-op, not a synchronous `InvalidCallbackKey` failure. -/
theorem invalid_key_silent_counterexample :
    WorkerAgentQR.init (some [("finish", 7)]) = WorkerAgentQR.init (some []) := rfl

/-- Witness for C4 (amended) at concrete inputs: the key "finish". -/
theorem callback_key_validation_witness :
    exceptIsOk (WorkerPS.connect Connections.empty (some [("finish", 1)])) = false
    ∧ WorkerAgentQR.init (some ([("started", 2)] ++ [("finish", 3)]))
        = WorkerAgentQR.init (some [("started", 2)]) :=
  callback_key_validation Connections.empty [("finish", 1)] [("started", 2)]
    "finish" 3 rfl (by decide)

/-- Claim C8 (corrected, amended): `dispatch` hands the worker to the shared
pool for asynchronous execution and returns `None` to the caller — there is
no per-submission handle at all; querying is available only through the
agent properties such as `active_threads`.  The original claim, that a
queryable opaque handle is returned "rather than returning nothing", fails
on the code (see the counterexample below). -/
theorem dispatch_submits_returns_none
    (inst : WorkerAgentInstance) (pool : PoolState) (t : Nat)
    (l : Option CallbackDict) (r : Connections × PoolState × PyNone)
    (h : WorkerAgent.dispatch inst pool t l = Except.ok r) :
    r.2.1 = pool.start t ∧ r.2.2 = PyNone.none := by
  simp only [WorkerAgent.dispatch] at h
  cases h1 : WorkerPS.connect Connections.empty inst.globalCallbacks with
  | error m => simp only [h1] at h; cases h
  | ok c1 =>
      cases h2 : WorkerPS.connect c1 l with
      | error m => simp only [h1, h2] at h; cases h
      | ok c2 =>
          simp only [h1, h2] at h
          injection h with h
          subst h
          exact ⟨rfl, rfl⟩

/-- Counterexample refuting C8 as stated: a concrete dispatch call returns
`None` — Python for "nothing" — to the caller, not an opaque queryable
handle; the third component of the result triple is the value the Python
function returns, and its type `PyNone` holds no handle. -/
theorem dispatch_handle_counterexample :
    WorkerAgent.dispatch ⟨Option.none⟩ (PoolState.init 4) 0 Option.none
      = Except.ok (Connections.empty, (PoolState.init 4).start 0, PyNone.none) := rfl

/-- Witness for C8 (amended) at concrete inputs. -/
theorem dispatch_submits_returns_none_witness :
    ((Connections.empty, (PoolState.init 4).start 7, PyNone.none) :
        Connections × PoolState × PyNone).2.1 = (PoolState.init 4).start 7
    ∧ ((Connections.empty, (PoolState.init 4).start 7, PyNone.none) :
        Connections × PoolState × PyNone).2.2 = PyNone.none :=
  dispatch_submits_returns_none ⟨Option.none⟩ (PoolState.init 4) 7 Option.none
    (Connections.empty, (PoolState.init 4).start 7, PyNone.none) rfl

/-- Claim C9 (confirmed): the threadpool of both agent variants is a
class-level attribute, so all agent instances share one pool.  Setting the
maximum thread count through one instance — via the property setter or the
constructor argument — is observed by every other instance, and a dispatch
through one instance changes the active count every other instance reads:
the pool is not per-instance state (none of the accessors consults the
instance it is called on). -/
theorem threadpool_is_class_level
    (a b : WorkerAgentInstance) (aq bq : WorkerAgentQRInstance)
    (p : PoolState) (v : Nat) (t : Nat) (g : Option CallbackDict) :
    WorkerAgentInstance.maxThreadCount b (WorkerAgentInstance.setMax a p v) = v
    ∧ WorkerAgentInstance.maxThreadCount b (WorkerAgent.init p (some v) g).2 = v
    ∧ WorkerAgentQRInstance.activeThreads bq
        (WorkerAgentQR.dispatch aq p t Option.none).2.1
        = (p.start t).activeThreadCount :=
  ⟨rfl, rfl, rfl⟩

/-- Claim C7 (confirmed): in every pool state reachable from a fresh pool of
capacity c by submissions and completions, the active count lies between 0
and c. -/
theorem active_count_bounded (c : Nat) (p : PoolState)
    (h : PoolReachable c p) :
    0 ≤ p.activeThreadCount ∧ p.activeThreadCount ≤ c :=
  ⟨Nat.zero_le _, (poolReachable_invariant c p h).2⟩

/-- Witness for C7 at a concrete reachable state: two submissions and one
completion on a pool of capacity 1. -/
theorem active_count_bounded_witness :
    0 ≤ (((PoolState.init 1).start 0).start 1).activeThreadCount
    ∧ (((PoolState.init 1).start 0).start 1).activeThreadCount ≤ 1 :=
  active_count_bounded 1 (((PoolState.init 1).start 0).start 1)
    (PoolReachable.start _ 1 (PoolReachable.start _ 0 PoolReachable.init))

/-- Claim C6 (confirmed): submitting the tasks `ts` (with more tasks than
the capacity C) to a fresh pool while nothing finishes starts exactly the
first C of them, in submission order, and queues the remaining ones in
submission order; and whenever a running task finishes while the queue is
non-empty, exactly the head of the queue starts and the rest stay queued in
order — FIFO scheduling. -/
theorem fifo_scheduling (C : Nat) (ts : List Nat) (hC : C < ts.length)
    (p : PoolState) (t q : Nat) (rest : List Nat)
    (hrun : t ∈ p.running) (hpend : p.pending = q :: rest) :
    ((PoolState.submitAll (PoolState.init C) ts).running = ts.take C
     ∧ (ts.take C).length = C
     ∧ (PoolState.submitAll (PoolState.init C) ts).pending = ts.drop C
     ∧ (ts.drop C).length = ts.length - C)
    ∧ ((p.finish t).running = p.running.erase t ++ [q]
       ∧ (p.finish t).pending = rest) := by
  constructor
  · obtain ⟨h1, h2⟩ := submitAll_take_drop ts (PoolState.init C) rfl
    refine ⟨?_, ?_, ?_, ?_⟩
    · simpa [PoolState.init] using h1
    · simp [List.length_take]; omega
    · simpa [PoolState.init] using h2
    · simp [List.length_drop]
  · constructor
    · simp [PoolState.finish, hrun, hpend]
    · simp [PoolState.finish, hrun, hpend]

/-- Witness for C6 at concrete inputs: three tasks on a pool of capacity
one, then the running task finishes and the queue head starts. -/
theorem fifo_scheduling_witness :
    ((PoolState.submitAll (PoolState.init 1) [10, 11, 12]).running
        = ([10, 11, 12] : List Nat).take 1
     ∧ (([10, 11, 12] : List Nat).take 1).length = 1
     ∧ (PoolState.submitAll (PoolState.init 1) [10, 11, 12]).pending
         = ([10, 11, 12] : List Nat).drop 1
     ∧ (([10, 11, 12] : List Nat).drop 1).length = ([10, 11, 12] : List Nat).length - 1)
    ∧ (((⟨1, [10], [11, 12]⟩ : PoolState).finish 10).running
        = ([10] : List Nat).erase 10 ++ [11]
       ∧ ((⟨1, [10], [11, 12]⟩ : PoolState).finish 10).pending = [12]) :=
  fifo_scheduling 1 [10, 11, 12] (by decide) ⟨1, [10], [11, 12]⟩ 10 11 [12]
    (by decide) rfl

end QtSnippets
